import Mathlib

/-! Verification of the `detsys-ids-client` telemetry pipeline.

A shallow embedding of the client's actor pipeline: the Collator (identity and
session state, event composition), the ConfigurationProxy's check-in refresh
handler, the Submitter's flush logic, the Recorder's feature-flag lookup and
check-in wait, and the SrvHttp transport's compression negotiation.

Pure data and state transitions are translated directly from the source; the
effectful surroundings (channels, clocks, UUID generation, the transport, and
persistent storage) appear as explicit parameters and outputs: a handler that
sends on a channel returns the sent messages in a list, a handler that calls
the transport takes the transport's result as a parameter, and a freshly
generated UUID is an explicit argument (freshness of a generated UUID is a
hypothesis where a claim needs it).
-/

namespace DetsysIds

/-- JSON values, modelling `serde_json::Value` as the program uses it
(numbers are collapsed to integers; none of the verified code inspects
numeric values). -/
inductive Json where
  | null
  | bool (b : Bool)
  | num (n : Int)
  | str (s : String)
  | arr (elems : List Json)
  | obj (fields : List (String × Json))

mutual

/-- Structural decidable equality for `Json` (the `PartialEq` the Rust code
derives for `serde_json::Value`-carrying types). -/
def Json.decEq : (a b : Json) → Decidable (a = b)
  | .null, .null => .isTrue rfl
  | .null, .bool _ => .isFalse (fun h => Json.noConfusion h)
  | .null, .num _ => .isFalse (fun h => Json.noConfusion h)
  | .null, .str _ => .isFalse (fun h => Json.noConfusion h)
  | .null, .arr _ => .isFalse (fun h => Json.noConfusion h)
  | .null, .obj _ => .isFalse (fun h => Json.noConfusion h)
  | .bool _, .null => .isFalse (fun h => Json.noConfusion h)
  | .bool a, .bool b =>
    if h : a = b then .isTrue (by rw [h]) else .isFalse (fun hh => h (Json.bool.inj hh))
  | .bool _, .num _ => .isFalse (fun h => Json.noConfusion h)
  | .bool _, .str _ => .isFalse (fun h => Json.noConfusion h)
  | .bool _, .arr _ => .isFalse (fun h => Json.noConfusion h)
  | .bool _, .obj _ => .isFalse (fun h => Json.noConfusion h)
  | .num _, .null => .isFalse (fun h => Json.noConfusion h)
  | .num _, .bool _ => .isFalse (fun h => Json.noConfusion h)
  | .num a, .num b =>
    if h : a = b then .isTrue (by rw [h]) else .isFalse (fun hh => h (Json.num.inj hh))
  | .num _, .str _ => .isFalse (fun h => Json.noConfusion h)
  | .num _, .arr _ => .isFalse (fun h => Json.noConfusion h)
  | .num _, .obj _ => .isFalse (fun h => Json.noConfusion h)
  | .str _, .null => .isFalse (fun h => Json.noConfusion h)
  | .str _, .bool _ => .isFalse (fun h => Json.noConfusion h)
  | .str _, .num _ => .isFalse (fun h => Json.noConfusion h)
  | .str a, .str b =>
    if h : a = b then .isTrue (by rw [h]) else .isFalse (fun hh => h (Json.str.inj hh))
  | .str _, .arr _ => .isFalse (fun h => Json.noConfusion h)
  | .str _, .obj _ => .isFalse (fun h => Json.noConfusion h)
  | .arr _, .null => .isFalse (fun h => Json.noConfusion h)
  | .arr _, .bool _ => .isFalse (fun h => Json.noConfusion h)
  | .arr _, .num _ => .isFalse (fun h => Json.noConfusion h)
  | .arr _, .str _ => .isFalse (fun h => Json.noConfusion h)
  | .arr a, .arr b =>
    match Json.decEqList a b with
    | .isTrue h => .isTrue (by rw [h])
    | .isFalse h => .isFalse (fun hh => h (Json.arr.inj hh))
  | .arr _, .obj _ => .isFalse (fun h => Json.noConfusion h)
  | .obj _, .null => .isFalse (fun h => Json.noConfusion h)
  | .obj _, .bool _ => .isFalse (fun h => Json.noConfusion h)
  | .obj _, .num _ => .isFalse (fun h => Json.noConfusion h)
  | .obj _, .str _ => .isFalse (fun h => Json.noConfusion h)
  | .obj _, .arr _ => .isFalse (fun h => Json.noConfusion h)
  | .obj a, .obj b =>
    match Json.decEqObj a b with
    | .isTrue h => .isTrue (by rw [h])
    | .isFalse h => .isFalse (fun hh => h (Json.obj.inj hh))

/-- Decidable equality for lists of JSON values. -/
def Json.decEqList : (a b : List Json) → Decidable (a = b)
  | [], [] => .isTrue rfl
  | [], _ :: _ => .isFalse (fun h => List.noConfusion h)
  | _ :: _, [] => .isFalse (fun h => List.noConfusion h)
  | x :: xs, y :: ys =>
    match Json.decEq x y with
    | .isFalse h => .isFalse (fun hh => h (List.cons.inj hh).1)
    | .isTrue h1 =>
      match Json.decEqList xs ys with
      | .isTrue h2 => .isTrue (by rw [h1, h2])
      | .isFalse h2 => .isFalse (fun hh => h2 (List.cons.inj hh).2)

/-- Decidable equality for JSON object field lists. -/
def Json.decEqObj : (a b : List (String × Json)) → Decidable (a = b)
  | [], [] => .isTrue rfl
  | [], _ :: _ => .isFalse (fun h => List.noConfusion h)
  | _ :: _, [] => .isFalse (fun h => List.noConfusion h)
  | (k₁, v₁) :: xs, (k₂, v₂) :: ys =>
    if hk : k₁ = k₂ then
      match Json.decEq v₁ v₂ with
      | .isFalse h =>
        .isFalse (fun hh => h (congrArg Prod.snd (List.cons.inj hh).1))
      | .isTrue h1 =>
        match Json.decEqObj xs ys with
        | .isTrue h2 => .isTrue (by rw [hk, h1, h2])
        | .isFalse h2 => .isFalse (fun hh => h2 (List.cons.inj hh).2)
    else
      .isFalse (fun hh => hk (congrArg Prod.fst (List.cons.inj hh).1))

end

instance : DecidableEq Json := Json.decEq

/-- `crate::Map`: a string-keyed JSON map, modelled as an insertion-ordered
association list. -/
abbrev Map := List (String × Json)

/-- `crate::Groups`: group-kind to member-id. -/
abbrev Groups := List (String × String)

/-- `Map::insert`: replace the value in place when the key is present,
otherwise append the new entry. -/
def mapInsert (m : Map) (k : String) (v : Json) : Map :=
  if m.any (fun kv => kv.1 = k) then
    m.map (fun kv => if kv.1 = k then (k, v) else kv)
  else
    m ++ [(k, v)]

/-- `Map::append`: fold every entry of `other` into `m`. -/
def mapAppend (m other : Map) : Map :=
  other.foldl (fun acc kv => mapInsert acc kv.1 kv.2) m

/-- `Groups` insert, mirroring `HashMap::insert` key replacement. -/
def groupsInsert (g : Groups) (k v : String) : Groups :=
  if g.any (fun kv => kv.1 = k) then
    g.map (fun kv => if kv.1 = k then (k, v) else kv)
  else
    g ++ [(k, v)]

/-- `Groups::extend` over an iterator of pairs. -/
def groupsExtend (g : Groups) (other : Groups) : Groups :=
  other.foldl (fun acc kv => groupsInsert acc kv.1 kv.2) g

/-! Section: Check-in data model (`src/checkin`, `src/compression_set.rs`) -/

/-- `CompressionAlgorithm` from `src/compression_set.rs`. -/
inductive CompressionAlgorithm where
  | identity
  | zstd
deriving DecidableEq, Repr

/-- `CompressionSet` from `src/compression_set.rs`: the set of compression
algorithms the server still accepts, with identity always implicitly present. -/
structure CompressionSet where
  zstd : Bool
deriving DecidableEq, Repr

/-- `CompressionSet::delete`: a 415 evicts the rejected algorithm; removing
identity is a no-op. -/
def CompressionSet.delete (s : CompressionSet) (algo : CompressionAlgorithm) : CompressionSet :=
  match algo with
  | .identity => s
  | .zstd => { s with zstd := false }

/-- `CompressionSet::into_iter`: zstd first when enabled, identity always
pushed last. -/
def CompressionSet.intoIter (s : CompressionSet) : List CompressionAlgorithm :=
  (if s.zstd then [CompressionAlgorithm.zstd] else []) ++ [CompressionAlgorithm.identity]

/-- `CompressionSet::default`: zstd enabled. -/
def CompressionSet.mkDefault : CompressionSet := { zstd := true }

/-- `ServerOptions` from `src/checkin/server_options.rs`. -/
structure ServerOptions where
  compression_algorithms : CompressionSet
deriving DecidableEq, Repr

/-- `Feature<serde_json::Value>` from `src/checkin/feature.rs`: one flag's
variant and optional (still JSON-encoded) payload. -/
structure Feature where
  variant : Json
  payload : Option Json
deriving DecidableEq

/-- `Checkin` from `src/checkin/mod.rs`: server options plus the coherent
feature-flag map (modelled as an association list of flag name to feature). -/
structure Checkin where
  server_options : ServerOptions
  options : List (String × Feature)
deriving DecidableEq

/-- `FeatureFacts` from `src/collator.rs`: a newtype around `Map`. -/
structure FeatureFacts where
  facts : Map
deriving DecidableEq

/-- `FeatureFacts::default()`: the empty map. -/
def FeatureFacts.mkDefault : FeatureFacts := ⟨[]⟩

/-- `Checkin::as_feature_facts`: `$active_feature_flags` holds the flag-name
array, and each flag contributes a `$feature/<name>` entry carrying its
variant. -/
def Checkin.asFeatureFacts (c : Checkin) : FeatureFacts :=
  let ff : Map :=
    mapInsert [] "$active_feature_flags" (Json.arr (c.options.map (fun kv => Json.str kv.1)))
  ⟨c.options.foldl (fun acc kv => mapInsert acc ("$feature/" ++ kv.1) kv.2.variant) ff⟩

/-! Section: Collator data model (`src/collator.rs`, `src/identity.rs`,
`src/storage/mod.rs`, `src/ds_correlation.rs`)

Identity newtypes (`AnonymousDistinctId`, `DistinctId`, `DeviceId`) wrap a
`String`; the embedding uses `String` directly. A freshly generated UUID
(`uuid::Uuid::now_v7()` or `DeviceId::new()`) is an explicit argument of the
operation that generates it. -/

/-- `EventProperties` from `src/collator.rs` (serde renames elided; the
flattened system snapshot is kept as its serialised `Map`). -/
structure EventProperties where
  anon_distinct_id : String
  device_id : String
  lib : String
  lib_version : String
  session_id : String
  groups : Groups
  snapshot : Map
  facts : Map
  featurefacts : FeatureFacts
  properties : Option Map
deriving DecidableEq

/-- `Event` from `src/collator.rs`. -/
structure Event where
  name : String
  distinct_id : String
  uuid : String
  timestamp : String
  properties : EventProperties
deriving DecidableEq

/-- `env!("CARGO_PKG_NAME")`. -/
def libName : String := "detsys-ids-client"

/-- `env!("CARGO_PKG_VERSION")` (an opaque compile-time constant; no verified
property depends on its value). -/
def libVersion : String := "0.0.0"

/-- `StoredProperties` from `src/storage/mod.rs`, restricted to the fields the
Collator stores. -/
structure StoredProperties where
  anonymous_distinct_id : String
  distinct_id : Option String
  device_id : String
  groups : Groups
deriving DecidableEq

/-- `Correlation` from `src/ds_correlation.rs`: the startup identity seed. -/
structure Correlation where
  distinct_id : Option String
  anon_distinct_id : Option String
  session_id : Option String
  window_id : Option String
  device_id : Option String
  groups : List (String × Option String)
  properties : Map
deriving DecidableEq

/-- `Correlation::groups_as_hashmap`: groups with a null value are dropped. -/
def Correlation.groupsAsHashmap (c : Correlation) : Groups :=
  c.groups.filterMap (fun kv => kv.2.map (fun v => (kv.1, v)))

/-- The Collator's identity/session/fact/group state (`src/collator.rs`,
without the channel ends, the snapshotter and the storage handle, which are
effects modelled at each handler). -/
structure Collator where
  session_id : String
  anon_distinct_id : String
  distinct_id : Option String
  device_id : String
  facts : Map
  featurefacts : FeatureFacts
  groups : Groups
deriving DecidableEq

/-- `Collator::distinct_id`: the reported distinct id is `distinct_id` when
set, else the anonymous distinct id. -/
def Collator.distinctId (c : Collator) : String :=
  match c.distinct_id with
  | some d => d
  | none => c.anon_distinct_id

/-- `Collator::new` (`src/collator.rs` lines 89-141). The result of
`storage.load().await.ok().flatten()` is the `stored_ident` parameter, and the
three freshly generated identifiers are explicit arguments. -/
def Collator.new (anonymous_distinct_id : Option String) (distinct_id : Option String)
    (device_id : Option String) (facts : Map) (groups : Groups)
    (correlation_data : Correlation) (stored_ident : Option StoredProperties)
    (freshSession freshAnon freshDevice : String) : Collator :=
  let facts := mapAppend facts correlation_data.properties
  let groups := groupsExtend groups correlation_data.groupsAsHashmap
  { session_id := correlation_data.session_id.getD freshSession
    anon_distinct_id :=
      (((anonymous_distinct_id.orElse
          (fun _ => stored_ident.map (fun props => props.anonymous_distinct_id))).orElse
        (fun _ => correlation_data.anon_distinct_id))).getD freshAnon
    distinct_id :=
      ((distinct_id.orElse
          (fun _ => stored_ident.bind (fun props => props.distinct_id))).orElse
        (fun _ => correlation_data.distinct_id))
    device_id :=
      (((device_id.orElse
          (fun _ => stored_ident.map (fun props => props.device_id))).orElse
        (fun _ => correlation_data.device_id))).getD freshDevice
    facts
    featurefacts := FeatureFacts.mkDefault
    groups }

/-- `Collator::msg_to_event` (`src/collator.rs` lines 212-241); the snapshot,
timestamp and random event UUID arrive as parameters. -/
def Collator.msgToEvent (c : Collator) (snapshot : Map) (event : String)
    (properties : Option Map) (timestamp uuid : String) : Event :=
  { name := event
    distinct_id := c.distinctId
    uuid
    timestamp
    properties :=
      { anon_distinct_id := c.anon_distinct_id
        session_id := c.session_id
        device_id := c.device_id
        snapshot
        facts := c.facts
        featurefacts := c.featurefacts
        lib := libName
        lib_version := libVersion
        properties
        groups := c.groups } }

/-- The `StoredProperties` the Collator writes from its current state (the
struct literal repeated in `handle_message_identify`, `handle_message_add_group`
and `handle_message_reset`). -/
def Collator.toStored (c : Collator) : StoredProperties :=
  { anonymous_distinct_id := c.anon_distinct_id
    distinct_id := c.distinct_id
    device_id := c.device_id
    groups := c.groups }

/-- Observable outcome of a Collator signal handler: the successor state, the
store request it issued (if any), and the events it forwarded to the
Submitter. -/
structure CollatorOutcome where
  state : Collator
  stored : Option StoredProperties
  emitted : List Event
deriving DecidableEq

/-- `Collator::handle_message_identify` (`src/collator.rs` lines 300-333).
`freshAnon` is the `uuid::Uuid::now_v7()` generated when the anonymous id is
rotated; `storeOk` is the storage result, which the handler only logs.
The store request and the `$identify` event are issued unconditionally. -/
def Collator.handleMessageIdentify (c : Collator) (new : String) (freshAnon : String)
    (storeOk : Bool) (snapshot : Map) (timestamp uuid : String) : CollatorOutcome :=
  let old := c.distinct_id
  let c := { c with distinct_id := some new }
  let c := if old.isSome then { c with anon_distinct_id := freshAnon } else c
  let _ := storeOk
  { state := c
    stored := some c.toStored
    emitted := [c.msgToEvent snapshot "$identify" none timestamp uuid] }

/-- `Collator::handle_message_reset` (`src/collator.rs` lines 380-398).
`freshAnon` is the `AnonymousDistinctId::new()` value; `storeOk` is the
storage result (only logged). No event is emitted. -/
def Collator.handleMessageReset (c : Collator) (freshAnon : String)
    (storeOk : Bool) : CollatorOutcome :=
  let c := { c with distinct_id := none, anon_distinct_id := freshAnon }
  let _ := storeOk
  { state := c
    stored := some c.toStored
    emitted := [] }

/-! Section: ConfigurationProxy (`src/configuration_proxy.rs`) -/

/-- An opaque transport error (`Transport::Error`); the handler only logs it. -/
abbrev TransportError := Unit

/-- Observable outcome of `handle_message_check_in_now`: the cache after the
handler ran, the reply sent on the one-shot channel, and whether a change
notification was broadcast. -/
structure CheckInNowOutcome where
  cache : Option Checkin
  reply : Option Checkin × FeatureFacts
  notified : Bool
deriving DecidableEq

/-- `ConfigurationProxy::handle_message_check_in_now` (`src/configuration_proxy.rs`
lines 225-272). The result of `transport.checkin(session_properties)` is the
`res` parameter; `fresh_checkin` is its `.ok()`. -/
def handleMessageCheckInNow (cache : Option Checkin)
    (res : Except TransportError Checkin) : CheckInNowOutcome :=
  let fresh_checkin := res.toOption
  let changed := fresh_checkin.isSome && decide (fresh_checkin ≠ cache)
  let current_checkin :=
    if changed then
      match fresh_checkin with
      | some fresh => some fresh
      | none => cache
    else cache
  let feature_facts := (current_checkin.map Checkin.asFeatureFacts).getD FeatureFacts.mkDefault
  { cache := current_checkin
    reply := (current_checkin, feature_facts)
    notified := changed }

/-- `ConfigurationProxy::handle_message_get_feature` (`src/configuration_proxy.rs`
lines 176-196): look the name up in the cached check-in's options. -/
def handleMessageGetFeature (cache : Option Checkin) (name : String) : Option Feature :=
  (cache.bind (fun c => c.options.find? (fun kv => kv.1 = name))).map (fun kv => kv.2)

/-! Section: Submitter (`src/submitter.rs`) -/

/-- `Batch` from `src/submitter.rs`. -/
structure Batch where
  sent_at : String
  batch : List Event
deriving DecidableEq

/-- Observable outcome of `Submitter::try_flush`: the buffer afterwards and
the batches handed to `transport.submit` during the attempt. -/
structure FlushOutcome where
  events : List Event
  submitted : List Batch
deriving DecidableEq

/-- `Submitter::try_flush` (`src/submitter.rs` lines 58-83). The result of
`transport.submit(batch)` is the `submitRes` parameter and `now` the RFC 3339
timestamp taken when the batch is built. -/
def tryFlush (events : List Event) (submitRes : Except TransportError Unit)
    (now : String) : FlushOutcome :=
  if events.isEmpty then
    { events, submitted := [] }
  else
    let batch : Batch := { sent_at := now, batch := events }
    match submitRes with
    | .ok _ => { events := [], submitted := [batch] }
    | .error _ => { events, submitted := [batch] }

/-! Section: Recorder (`src/recorder.rs`) -/

/-- An event enqueued through `Recorder::record` (a `RawSignal::Event`). -/
structure RecordedEvent where
  event_name : String
  properties : Option Map
deriving DecidableEq

/-- The decoded `Feature<T>` that `get_feature` returns. -/
structure FeatureOf (τ : Type) where
  variant : Json
  payload : Option τ

/-- `Recorder::get_feature` (`src/recorder.rs` lines 225-268). The
ConfigurationProxy's reply to `GetFeature(key)` is `handleMessageGetFeature
cache key`; `decode` is `serde_json::from_value::<T>(..).ok()`. Returns the
decoded feature (or nothing) together with the events enqueued via
`self.record`. The `$feature_flag_called` event is recorded before the payload
is decoded. -/
def getFeature (τ : Type) (decode : Json → Option τ) (cache : Option Checkin)
    (key : String) : Option (FeatureOf τ) × List RecordedEvent :=
  match handleMessageGetFeature cache key with
  | none => (none, [])
  | some feature =>
    let called : RecordedEvent :=
      { event_name := "$feature_flag_called"
        properties := some (mapInsert (mapInsert [] "$feature_flag" (Json.str key))
          "$feature_flag_response" feature.variant) }
    let variant := feature.variant
    match feature.payload with
    | none => (some { variant, payload := none }, [called])
    | some p =>
      match decode p with
      | none => (none, [called])
      | some ret => (some { variant, payload := some ret }, [called])

/-- `CheckinStatus` from `src/configuration_proxy.rs`. -/
inductive CheckinStatus where
  | checkedIn
  | notYet
deriving DecidableEq, Repr

/-- The suspension points `Recorder::wait_for_checkin` performs, in program
order. -/
inductive WaitStep where
  | subscribe
  | query
  | awaitBroadcast (timeout : Option Nat)
deriving DecidableEq, Repr

/-- How `wait_for_checkin` finishes (before any broadcast arrives). -/
inductive WaitOutcome where
  | okImmediate
  | subscribeFailed
  | awaitingBroadcast (timeout : Option Nat)
deriving DecidableEq, Repr

/-- `Recorder::wait_for_checkin` (`src/recorder.rs` lines 193-222), as the
ordered list of steps it performs plus its control outcome. `subOk` is whether
`subscribe_to_feature_changes` returned a receiver, `status` the
`QueryIfCheckedIn` reply, `timeout` the caller-supplied bound. The subscription
is obtained first; the `CheckedIn` early return precedes the subscription
check; otherwise the broadcast is awaited under the caller's timeout. -/
def waitForCheckin (subOk : Bool) (status : CheckinStatus)
    (timeout : Option Nat) : List WaitStep × WaitOutcome :=
  if status = CheckinStatus.checkedIn then
    ([WaitStep.subscribe, WaitStep.query], WaitOutcome.okImmediate)
  else if subOk then
    ([WaitStep.subscribe, WaitStep.query, WaitStep.awaitBroadcast timeout],
      WaitOutcome.awaitingBroadcast timeout)
  else
    ([WaitStep.subscribe, WaitStep.query], WaitOutcome.subscribeFailed)

/-! Section: SrvHttp compression negotiation (`src/transport/srv_http.rs`) -/

/-- `perform_request`'s control outcome: a non-415 response with its status,
a reqwest error, or exhaustion of every compression mode. -/
inductive PerformOutcome where
  | success (algo : CompressionAlgorithm) (status : Nat)
  | reqwestError
  | noCompressionMode
deriving DecidableEq, Repr

/-- The loop of `perform_request` (`src/transport/srv_http.rs` lines 139-185)
over the algorithm list captured from the cached set at entry. `respond algo`
is the HTTP status the server answers that algorithm with (`none` for a
network error). Returns the cached set after the loop, the outcome, and the
algorithms attempted in order. A 415 deletes the algorithm from the cached set
and continues with the next; any other response returns it; an error aborts. -/
def performRequestGo (respond : CompressionAlgorithm → Option Nat) :
    List CompressionAlgorithm → CompressionSet →
    CompressionSet × PerformOutcome × List CompressionAlgorithm
  | [], opts => (opts, PerformOutcome.noCompressionMode, [])
  | algo :: rest, opts =>
    match respond algo with
    | none => (opts, PerformOutcome.reqwestError, [algo])
    | some status =>
      if status = 415 then
        let next := performRequestGo respond rest (opts.delete algo)
        (next.1, next.2.1, algo :: next.2.2)
      else
        (opts, PerformOutcome.success algo status, [algo])

/-- `perform_request`: iterate over `server_opts.compression_algorithms.into_iter()`. -/
def performRequest (opts : CompressionSet)
    (respond : CompressionAlgorithm → Option Nat) :
    CompressionSet × PerformOutcome × List CompressionAlgorithm :=
  performRequestGo respond opts.intoIter opts

/-! Section: Theorems -/

/-- C1. For every `Identify(new)` signal processed by the Collator: if a
distinct_id was already set (whether or not it equals `new`), the
anonymous_distinct_id is replaced by the freshly generated value, which — by
the freshness hypothesis on the generated UUID — differs from the one held
before; if no distinct_id was set, the anonymous_distinct_id is unchanged; in
both cases distinct_id becomes `new`, the new state is persisted, and a
`$identify` event is emitted; the outcome is independent of whether the store
succeeded. -/
theorem identify_rotates_anon_sets_id_and_emits (c : Collator)
    (new freshAnon : String) (storeOk : Bool) (snapshot : Map)
    (timestamp uuid : String) (hfresh : freshAnon ≠ c.anon_distinct_id) :
    let o := c.handleMessageIdentify new freshAnon storeOk snapshot timestamp uuid
    (c.distinct_id.isSome = true →
      o.state.anon_distinct_id = freshAnon
      ∧ o.state.anon_distinct_id ≠ c.anon_distinct_id)
    ∧ (c.distinct_id = none → o.state.anon_distinct_id = c.anon_distinct_id)
    ∧ o.state.distinct_id = some new
    ∧ o.stored = some o.state.toStored
    ∧ o.emitted = [o.state.msgToEvent snapshot "$identify" none timestamp uuid]
    ∧ o.emitted.map Event.name = ["$identify"]
    ∧ c.handleMessageIdentify new freshAnon true snapshot timestamp uuid
        = c.handleMessageIdentify new freshAnon false snapshot timestamp uuid := by
  cases hd : c.distinct_id with
  | none =>
    simp [Collator.handleMessageIdentify, hd, Collator.msgToEvent]
  | some d =>
    simp [Collator.handleMessageIdentify, hd, Collator.msgToEvent, hfresh]

/-- Witness for C1: a collator that already had `distinct_id = some "u0"`,
identified as `"u1"` with fresh anonymous id `"a1" ≠ "a0"`. -/
theorem identify_rotates_anon_sets_id_and_emits_witness :
    (({ session_id := "s", anon_distinct_id := "a0", distinct_id := some "u0",
        device_id := "d", facts := [], featurefacts := ⟨[]⟩,
        groups := [] : Collator }).handleMessageIdentify
          "u1" "a1" true [] "t" "e1").state.anon_distinct_id = "a1" :=
  ((identify_rotates_anon_sets_id_and_emits
    { session_id := "s", anon_distinct_id := "a0", distinct_id := some "u0",
      device_id := "d", facts := [], featurefacts := ⟨[]⟩, groups := [] }
    "u1" "a1" true [] "t" "e1" (by decide)).1 (by decide)).1

/-- C5. For every `Reset` signal processed by the Collator: distinct_id
becomes unset (so the next event's distinct_id equals the new
anonymous_distinct_id), the anonymous_distinct_id is replaced by the fresh
value (different from the old one by the freshness hypothesis), and every
other Collator field — device_id, session_id, facts, feature-facts and
groups — is unchanged. -/
theorem reset_clears_distinct_id_rotates_anon_only (c : Collator)
    (freshAnon : String) (storeOk : Bool)
    (hfresh : freshAnon ≠ c.anon_distinct_id) :
    let o := c.handleMessageReset freshAnon storeOk
    o.state.distinct_id = none
    ∧ o.state.anon_distinct_id = freshAnon
    ∧ o.state.anon_distinct_id ≠ c.anon_distinct_id
    ∧ (∀ snapshot name props timestamp uuid,
        (o.state.msgToEvent snapshot name props timestamp uuid).distinct_id
          = o.state.anon_distinct_id)
    ∧ o.state.device_id = c.device_id
    ∧ o.state.session_id = c.session_id
    ∧ o.state.facts = c.facts
    ∧ o.state.featurefacts = c.featurefacts
    ∧ o.state.groups = c.groups := by
  simp [Collator.handleMessageReset, Collator.msgToEvent, Collator.distinctId, hfresh]

/-- Witness for C5: resetting a collator that was identified as `"u0"`. -/
theorem reset_clears_distinct_id_rotates_anon_only_witness :
    (({ session_id := "s", anon_distinct_id := "a0", distinct_id := some "u0",
        device_id := "d", facts := [], featurefacts := ⟨[]⟩,
        groups := [] : Collator }).handleMessageReset "a1" true).state.distinct_id
      = none :=
  (reset_clears_distinct_id_rotates_anon_only
    { session_id := "s", anon_distinct_id := "a0", distinct_id := some "u0",
      device_id := "d", facts := [], featurefacts := ⟨[]⟩, groups := [] }
    "a1" true (by decide)).1

/-- C7. At Collator construction each identity field is chosen field-wise
by priority: anonymous_distinct_id is the builder value, else the stored
value, else the correlation value, else the fresh UUID; distinct_id is the
builder value, else the stored value, else the correlation value (unset when
that is unset too); device_id is the builder value, else the stored value,
else the correlation value, else the fresh default; session_id comes from the
correlation seed, else the fresh UUID, and never depends on storage. -/
theorem collator_new_field_priority (ba bd bdev : Option String) (facts : Map)
    (groups : Groups) (corr : Correlation) (stored : Option StoredProperties)
    (fs fa fdev : String) :
    let c := Collator.new ba bd bdev facts groups corr stored fs fa fdev
    (∀ a, ba = some a → c.anon_distinct_id = a)
    ∧ (∀ st, ba = none → stored = some st →
        c.anon_distinct_id = st.anonymous_distinct_id)
    ∧ (∀ a, ba = none → stored = none → corr.anon_distinct_id = some a →
        c.anon_distinct_id = a)
    ∧ (ba = none → stored = none → corr.anon_distinct_id = none →
        c.anon_distinct_id = fa)
    ∧ (∀ d, bd = some d → c.distinct_id = some d)
    ∧ (∀ st d, bd = none → stored = some st → st.distinct_id = some d →
        c.distinct_id = some d)
    ∧ (∀ st, bd = none → stored = some st → st.distinct_id = none →
        c.distinct_id = corr.distinct_id)
    ∧ (bd = none → stored = none → c.distinct_id = corr.distinct_id)
    ∧ (∀ d, bdev = some d → c.device_id = d)
    ∧ (∀ st, bdev = none → stored = some st → c.device_id = st.device_id)
    ∧ (∀ d, bdev = none → stored = none → corr.device_id = some d →
        c.device_id = d)
    ∧ (bdev = none → stored = none → corr.device_id = none → c.device_id = fdev)
    ∧ (∀ s, corr.session_id = some s → c.session_id = s)
    ∧ (corr.session_id = none → c.session_id = fs)
    ∧ (∀ stored₂,
        (Collator.new ba bd bdev facts groups corr stored₂ fs fa fdev).session_id
          = c.session_id) := by
  refine ⟨?_, ?_, ?_, ?_, ?_, ?_, ?_, ?_, ?_, ?_, ?_, ?_, ?_, ?_, ?_⟩
  · intro a h; subst h; simp [Collator.new, Option.orElse]
  · intro st h1 h2; subst h1; subst h2; simp [Collator.new, Option.orElse]
  · intro a h1 h2 h3; subst h1; subst h2; simp [Collator.new, Option.orElse, h3]
  · intro h1 h2 h3; subst h1; subst h2; simp [Collator.new, Option.orElse, h3]
  · intro d h; subst h; simp [Collator.new, Option.orElse]
  · intro st d h1 h2 h3; subst h1; subst h2; simp [Collator.new, Option.orElse, h3]
  · intro st h1 h2 h3; subst h1; subst h2; simp [Collator.new, Option.orElse, h3]
  · intro h1 h2; subst h1; subst h2; simp [Collator.new, Option.orElse]
  · intro d h; subst h; simp [Collator.new, Option.orElse]
  · intro st h1 h2; subst h1; subst h2; simp [Collator.new, Option.orElse]
  · intro d h1 h2 h3; subst h1; subst h2; simp [Collator.new, Option.orElse, h3]
  · intro h1 h2 h3; subst h1; subst h2; simp [Collator.new, Option.orElse, h3]
  · intro s h; simp [Collator.new, h]
  · intro h; simp [Collator.new, h]
  · intro stored₂; simp [Collator.new]

/-- Witness for C7: with no builder value, a stored identity wins over the
correlation seed for the anonymous distinct id. -/
theorem collator_new_field_priority_witness :
    (Collator.new none none none [] []
      { distinct_id := none, anon_distinct_id := some "corr-anon",
        session_id := none, window_id := none, device_id := none,
        groups := [], properties := [] }
      (some { anonymous_distinct_id := "stored-anon", distinct_id := none,
              device_id := "stored-dev", groups := [] })
      "fs" "fa" "fd").anon_distinct_id = "stored-anon" :=
  ((collator_new_field_priority none none none [] []
    { distinct_id := none, anon_distinct_id := some "corr-anon",
      session_id := none, window_id := none, device_id := none,
      groups := [], properties := [] }
    (some { anonymous_distinct_id := "stored-anon", distinct_id := none,
            device_id := "stored-dev", groups := [] })
    "fs" "fa" "fd").2.1
    { anonymous_distinct_id := "stored-anon", distinct_id := none,
      device_id := "stored-dev", groups := [] } rfl rfl)

/-- C3. For every `CheckInNow` in which `transport.checkin` returns an
error: the cached checkin is left unchanged, no change notification is
broadcast, and a reply is still sent containing the current cached checkin
(possibly none) and the feature-facts derived from that cache (empty when
there is no cache). -/
theorem checkin_error_preserves_cache (cache : Option Checkin)
    (e : TransportError) :
    let o := handleMessageCheckInNow cache (Except.error e)
    o.cache = cache
    ∧ o.notified = false
    ∧ o.reply.1 = cache
    ∧ (∀ c, cache = some c → o.reply.2 = c.asFeatureFacts)
    ∧ (cache = none → o.reply.2 = FeatureFacts.mkDefault) := by
  cases cache with
  | none => simp [handleMessageCheckInNow, Except.toOption]
  | some c => simp [handleMessageCheckInNow, Except.toOption]

/-- Witness for C3: a transport error against a populated cache leaves the
derived feature-facts of that cache in the reply. -/
theorem checkin_error_preserves_cache_witness :
    (handleMessageCheckInNow
      (some { server_options := ⟨⟨true⟩⟩, options := [("f", ⟨Json.bool true, none⟩)] })
      (Except.error ())).reply.2
      = ({ server_options := ⟨⟨true⟩⟩,
           options := [("f", ⟨Json.bool true, none⟩)] : Checkin }).asFeatureFacts :=
  (checkin_error_preserves_cache
    (some { server_options := ⟨⟨true⟩⟩, options := [("f", ⟨Json.bool true, none⟩)] })
    ()).2.2.2.1
    { server_options := ⟨⟨true⟩⟩, options := [("f", ⟨Json.bool true, none⟩)] } rfl

/-- C6. For every `CheckInNow` in which `transport.checkin` succeeds: the
cached checkin is replaced by the fresh one if and only if the fresh checkin
differs from the cached one under structural equality, a change notification
is broadcast if and only if the cache was replaced, and the reply carries the
post-update cache together with the feature-facts derived from it. -/
theorem checkin_success_replace_iff_changed (cache : Option Checkin)
    (fresh : Checkin) :
    let o := handleMessageCheckInNow cache (Except.ok fresh)
    (some fresh ≠ cache → o.cache = some fresh ∧ o.notified = true)
    ∧ (some fresh = cache → o.cache = cache ∧ o.notified = false)
    ∧ o.reply.1 = o.cache
    ∧ o.cache.isSome = true
    ∧ (∀ c, o.cache = some c → o.reply.2 = c.asFeatureFacts) := by
  by_cases h : some fresh = cache
  · subst h
    simp [handleMessageCheckInNow, Except.toOption]
  · simp [handleMessageCheckInNow, Except.toOption, h]

/-- Witness for C6: a fresh check-in differing from an empty cache replaces it
and broadcasts. -/
theorem checkin_success_replace_iff_changed_witness :
    (handleMessageCheckInNow none
      (Except.ok { server_options := ⟨⟨true⟩⟩, options := [] })).notified = true :=
  ((checkin_success_replace_iff_changed none
    { server_options := ⟨⟨true⟩⟩, options := [] }).1 (by decide)).2

/-- C4. For every flush attempt by the Submitter: if the event buffer is
empty nothing is submitted; otherwise exactly one `Batch` containing exactly
the buffered events is submitted; on transport success the buffer becomes
empty, and on transport error the buffer is unchanged, retaining the same
events for the next attempt. -/
theorem try_flush_retains_on_error (events : List Event)
    (res : Except TransportError Unit) (now : String) :
    let o := tryFlush events res now
    (events = [] → o.events = [] ∧ o.submitted = [])
    ∧ (events ≠ [] → o.submitted = [{ sent_at := now, batch := events }])
    ∧ (events ≠ [] → res = Except.ok () → o.events = [])
    ∧ (∀ e, events ≠ [] → res = Except.error e → o.events = events) := by
  cases events with
  | nil => simp [tryFlush]
  | cons x xs =>
    cases res with
    | ok u => cases u; simp [tryFlush]
    | error e => cases e; simp [tryFlush]

/-- Witness for C4: a failed submission of a one-event buffer retains the
buffer. -/
theorem try_flush_retains_on_error_witness :
    (tryFlush
      [⟨"e", "d", "u", "t", ⟨"a", "dev", libName, libVersion, "s", [], [], [], ⟨[]⟩, none⟩⟩]
      (Except.error ()) "now").events
      = [⟨"e", "d", "u", "t", ⟨"a", "dev", libName, libVersion, "s", [], [], [], ⟨[]⟩, none⟩⟩] :=
  (try_flush_retains_on_error
    [⟨"e", "d", "u", "t", ⟨"a", "dev", libName, libVersion, "s", [], [], [], ⟨[]⟩, none⟩⟩]
    (Except.error ()) "now").2.2.2 () (by simp) rfl

/-- Inserting into the empty map appends the entry. -/
theorem mapInsert_nil (k : String) (v : Json) : mapInsert [] k v = [(k, v)] := by
  simp [mapInsert]

/-- Inserting a fresh key into a singleton map appends the entry. -/
theorem mapInsert_singleton_of_ne (k₁ k₂ : String) (v₁ v₂ : Json) (h : k₁ ≠ k₂) :
    mapInsert [(k₁, v₁)] k₂ v₂ = [(k₁, v₁), (k₂, v₂)] := by
  simp [mapInsert, h]

/-- The properties of the `$feature_flag_called` event `get_feature` records:
`$feature_flag` is the looked-up key and `$feature_flag_response` the cached
variant. -/
theorem feature_flag_called_properties (key : String) (v : Json) :
    mapInsert (mapInsert [] "$feature_flag" (Json.str key)) "$feature_flag_response" v
      = [("$feature_flag", Json.str key), ("$feature_flag_response", v)] := by
  rw [mapInsert_nil, mapInsert_singleton_of_ne]
  decide

/-- C2. For every flag lookup that returns a variant `v`, exactly one
`$feature_flag_called` event is emitted whose properties contain
`$feature_flag` equal to the looked-up key and `$feature_flag_response` equal
to `v`; a lookup that finds no cached feature emits no such event. -/
theorem get_feature_emits_called_event (τ : Type) (decode : Json → Option τ)
    (cache : Option Checkin) (key : String) :
    let r := getFeature τ decode cache key
    (∀ f, r.1 = some f →
      r.2 = [{ event_name := "$feature_flag_called",
               properties := some [("$feature_flag", Json.str key),
                 ("$feature_flag_response", f.variant)] }])
    ∧ (handleMessageGetFeature cache key = none → r.2 = []) := by
  cases hf : handleMessageGetFeature cache key with
  | none => simp [getFeature, hf]
  | some feature =>
    refine ⟨?_, by simp⟩
    intro f hfres
    cases hp : feature.payload with
    | none =>
      simp only [getFeature, hf, hp, Option.some.injEq] at hfres
      subst hfres
      simp [getFeature, hf, hp, feature_flag_called_properties]
    | some p =>
      cases hdec : decode p with
      | none => simp [getFeature, hf, hp, hdec] at hfres
      | some ret =>
        simp only [getFeature, hf, hp, hdec, Option.some.injEq] at hfres
        subst hfres
        simp [getFeature, hf, hp, hdec, feature_flag_called_properties]

/-- Witness for C2: looking up a cached flag returns its variant and records
exactly one `$feature_flag_called` event carrying it. -/
theorem get_feature_emits_called_event_witness :
    (getFeature Unit (fun _ => some ())
      (some { server_options := ⟨⟨true⟩⟩,
              options := [("flag", ⟨Json.str "on", none⟩)] }) "flag").2
      = [{ event_name := "$feature_flag_called",
           properties := some [("$feature_flag", Json.str "flag"),
             ("$feature_flag_response", Json.str "on")] }] :=
  (get_feature_emits_called_event Unit (fun _ => some ())
    (some { server_options := ⟨⟨true⟩⟩,
            options := [("flag", ⟨Json.str "on", none⟩)] }) "flag").1
    ⟨Json.str "on", none⟩ rfl

/-- C10. For every `get_feature::<T>(key)` call in which the
ConfigurationProxy returns a cached feature whose payload is present but fails
to deserialize as `T`, the call returns nothing — even though the
`$feature_flag_called` event carrying that feature's variant has already been
enqueued, because the event is recorded before payload decoding is
attempted. -/
theorem get_feature_decode_failure_still_records (τ : Type)
    (decode : Json → Option τ) (cache : Option Checkin) (key : String)
    (feature : Feature) (p : Json)
    (hfeat : handleMessageGetFeature cache key = some feature)
    (hp : feature.payload = some p) (hdec : decode p = none) :
    getFeature τ decode cache key
      = (none, [{ event_name := "$feature_flag_called",
                  properties := some [("$feature_flag", Json.str key),
                    ("$feature_flag_response", feature.variant)] }]) := by
  simp [getFeature, hfeat, hp, hdec, feature_flag_called_properties]

/-- Witness for C10: a flag whose payload never decodes still records the
`$feature_flag_called` event and returns nothing. -/
theorem get_feature_decode_failure_still_records_witness :
    getFeature Nat (fun _ => none)
      (some { server_options := ⟨⟨true⟩⟩,
              options := [("flag", ⟨Json.str "on", some (Json.str "oops")⟩)] })
      "flag"
      = (none, [{ event_name := "$feature_flag_called",
                  properties := some [("$feature_flag", Json.str "flag"),
                    ("$feature_flag_response", Json.str "on")] }]) :=
  get_feature_decode_failure_still_records Nat (fun _ => none)
    (some { server_options := ⟨⟨true⟩⟩,
            options := [("flag", ⟨Json.str "on", some (Json.str "oops")⟩)] })
    "flag" ⟨Json.str "on", some (Json.str "oops")⟩ (Json.str "oops") rfl rfl rfl

/-- The algorithms `perform_request` attempts form the leading segment of the
algorithm list captured from the cached set. -/
theorem performRequestGo_attempts_lead (respond : CompressionAlgorithm → Option Nat) :
    ∀ (l : List CompressionAlgorithm) (opts : CompressionSet),
      ∃ rest, (performRequestGo respond l opts).2.2 ++ rest = l := by
  intro l
  induction l with
  | nil => intro opts; exact ⟨[], rfl⟩
  | cons a tl ih =>
    intro opts
    cases hr : respond a with
    | none => exact ⟨tl, by simp [performRequestGo, hr]⟩
    | some status =>
      by_cases hs : status = 415
      · obtain ⟨rest, hrest⟩ := ih (opts.delete a)
        exact ⟨rest, by simp [performRequestGo, hr, hs, hrest]⟩
      · exact ⟨tl, by simp [performRequestGo, hr, hs]⟩

/-- When the server answers 415 to every algorithm, the loop deletes each one
and runs the whole list before giving up. -/
theorem performRequestGo_all_rejected (respond : CompressionAlgorithm → Option Nat)
    (h : ∀ a, respond a = some 415) :
    ∀ (l : List CompressionAlgorithm) (opts : CompressionSet),
      performRequestGo respond l opts
        = (l.foldl CompressionSet.delete opts, PerformOutcome.noCompressionMode, l) := by
  intro l
  induction l with
  | nil => intro opts; rfl
  | cons a tl ih => intro opts; simp [performRequestGo, h a, ih]

/-- C8. In SrvHttp compression negotiation, for every request the
algorithms are tried in the cached set's order with zstd (when enabled)
before identity, identity always being present as the final element; an HTTP
415 response removes exactly the rejected algorithm from the cached set
(removing identity is a no-op) and the request is retried with the next
algorithm; when every algorithm has been tried and rejected the request fails
with `NoCompressionMode`. -/
theorem compression_negotiation_spec (opts : CompressionSet)
    (respond : CompressionAlgorithm → Option Nat) :
    let r := performRequest opts respond
    (∃ rest, r.2.2 ++ rest = opts.intoIter)
    ∧ opts.intoIter.getLast? = some CompressionAlgorithm.identity
    ∧ (CompressionAlgorithm.zstd ∈ opts.intoIter ↔ opts.zstd = true)
    ∧ (opts.zstd = true →
        opts.intoIter = [CompressionAlgorithm.zstd, CompressionAlgorithm.identity])
    ∧ (∀ algo rest o, respond algo = some 415 →
        performRequestGo respond (algo :: rest) o
          = ((performRequestGo respond rest (o.delete algo)).1,
             (performRequestGo respond rest (o.delete algo)).2.1,
             algo :: (performRequestGo respond rest (o.delete algo)).2.2))
    ∧ (∀ o : CompressionSet, o.delete CompressionAlgorithm.identity = o)
    ∧ ((∀ algo, respond algo = some 415) →
        r.2.1 = PerformOutcome.noCompressionMode ∧ r.2.2 = opts.intoIter) := by
  refine ⟨performRequestGo_attempts_lead respond opts.intoIter opts, ?_, ?_, ?_, ?_, ?_, ?_⟩
  · cases h : opts.zstd <;> simp [CompressionSet.intoIter, h]
  · cases h : opts.zstd <;> simp [CompressionSet.intoIter, h]
  · intro h; simp [CompressionSet.intoIter, h]
  · intro algo rest o hr
    simp [performRequestGo, hr]
  · intro o; rfl
  · intro hall
    rw [performRequest, performRequestGo_all_rejected respond hall]
    exact ⟨rfl, rfl⟩

/-- Witness for C8: with zstd cached and a server rejecting everything with
415, the request fails with `NoCompressionMode`. -/
theorem compression_negotiation_spec_witness :
    (performRequest ⟨true⟩ (fun _ => some 415)).2.1
      = PerformOutcome.noCompressionMode :=
  ((compression_negotiation_spec ⟨true⟩ (fun _ => some 415)).2.2.2.2.2.2
    (fun _ => rfl)).1

/-- C9. `wait_for_checkin` obtains its broadcast subscription before
sending `QueryIfCheckedIn` (the step list starts subscribe-then-query); if the
reply is `CheckedIn` it returns success immediately without awaiting the
broadcast; otherwise it awaits the next change notification bounded by the
caller-supplied timeout; and any broadcast await sits strictly after both the
subscribe (index 0) and the query (index 1), so a check-in completing between
the query and the wait lands inside the already-open subscription window. -/
theorem wait_for_checkin_subscribes_before_query (subOk : Bool)
    (status : CheckinStatus) (timeout : Option Nat) :
    let r := waitForCheckin subOk status timeout
    (∃ rest, r.1 = WaitStep.subscribe :: WaitStep.query :: rest)
    ∧ (status = CheckinStatus.checkedIn →
        r.2 = WaitOutcome.okImmediate ∧ ∀ t, WaitStep.awaitBroadcast t ∉ r.1)
    ∧ (status = CheckinStatus.notYet → subOk = true →
        r.2 = WaitOutcome.awaitingBroadcast timeout
        ∧ WaitStep.awaitBroadcast timeout ∈ r.1)
    ∧ (∀ p t, r.1.get? p = some (WaitStep.awaitBroadcast t) → 1 < p) := by
  cases status with
  | checkedIn =>
    refine ⟨⟨[], rfl⟩, by simp [waitForCheckin], by simp, ?_⟩
    intro p t hp
    match p with
    | 0 => simp [waitForCheckin] at hp
    | 1 => simp [waitForCheckin] at hp
    | n + 2 => simp [waitForCheckin] at hp
  | notYet =>
    cases subOk with
    | true =>
      refine ⟨⟨[WaitStep.awaitBroadcast timeout], rfl⟩,
        by simp, by simp [waitForCheckin], ?_⟩
      intro p t hp
      match p with
      | 0 => simp [waitForCheckin] at hp
      | 1 => simp [waitForCheckin] at hp
      | 2 => omega
      | n + 3 => simp [waitForCheckin] at hp
    | false =>
      refine ⟨⟨[], rfl⟩, by simp, by simp, ?_⟩
      intro p t hp
      match p with
      | 0 => simp [waitForCheckin] at hp
      | 1 => simp [waitForCheckin] at hp
      | n + 2 => simp [waitForCheckin] at hp

/-- Witness for C9: a `NotYet` reply with a live subscription awaits the
broadcast under the caller's timeout. -/
theorem wait_for_checkin_subscribes_before_query_witness :
    (waitForCheckin true CheckinStatus.notYet (some 5)).2
      = WaitOutcome.awaitingBroadcast (some 5) :=
  ((wait_for_checkin_subscribes_before_query true CheckinStatus.notYet
    (some 5)).2.2.1 rfl rfl).1

end DetsysIds
